import Mathlib

/-!
# google_oauth: the token-acquisition flow of `pkg/google_oauth/oauth.go`

A shallow embedding of the Go package `google_oauth`.  The package's own functions
(`initializeCredentials`, `GetCalendarService`, `getClient`, `getTokenFromWeb` with its
`/callback` handler, `getTokenFromFile`, `saveToken`) are transcribed as Lean functions that
pass an explicit `World` (environment variables, file system, default HTTP mux, effect
trace).  Behaviour of the Go standard library and of the `oauth2`/`calendar` packages that
the source calls, but which are not part of the package, is taken either as a parameter
(`Lib`: JSON encoding/decoding, URL construction, service construction) or as an input
recorded in the `World` (which files exist, whether a write comes up short, which callback
requests arrive, what the token endpoint answers).

Concurrency model.  The source runs the HTTP server on its own goroutine and blocks the
flow on a single receive from the unbuffered channel `authCodeCh`.  The embedding serves
the incoming callback requests one after another; a handler whose send on the channel can
never be matched by a receive is recorded as parked (it never responds).
-/

namespace GoogleOAuth

/-! ## Data model -/

/-- Go `error` values, identified by their message.  A nil error is `none` / `Except.ok`. -/
abbrev Error := String

/-- The struct `installed` of the source. -/
structure installed where
  ClientID : String
  ProjectID : String
  AuthURI : String
  TokenURI : String
  AuthProviderCertURL : String
  ClientSecret : String
  RedirectURIs : List String
deriving DecidableEq

/-- The struct `credentials` of the source. -/
structure credentials where
  Installed : installed
deriving DecidableEq

/-- The struct `OAuth` of the source. -/
structure OAuth where
  creds : credentials
deriving DecidableEq

/-- The exported fields of `oauth2.Token`.  `Expiry` is the `time.Time` instant, kept as an
uninterpreted integer: the package never inspects it. -/
structure Token where
  AccessToken : String
  TokenType : String
  RefreshToken : String
  Expiry : Int
deriving DecidableEq

/-- The fields of `oauth2.Config`. -/
structure Config where
  ClientID : String
  ClientSecret : String
  AuthURL : String
  TokenURL : String
  RedirectURL : String
  Scopes : List String
deriving DecidableEq

/-- The `*http.Client` returned by `config.Client(ctx, tok)`: it is determined by the
configuration and the token it was built from. -/
structure HTTPClient where
  config : Config
  token : Token
deriving DecidableEq

/-- The method `(*oauth2.Config).Client`. -/
def Config.Client (config : Config) (tok : Token) : HTTPClient :=
  { config := config, token := tok }

/-- A `*calendar.Service`, determined by the HTTP client it wraps. -/
structure Service where
  client : HTTPClient
deriving DecidableEq

/-- A request routed to the `/callback` handler: its parsed query (`r.URL.Query()`), as the
key/value pairs in the order in which they appear. -/
structure Request where
  query : List (String × String)
deriving DecidableEq

/-- What a handler wrote to its `http.ResponseWriter`. -/
structure Response where
  status : Nat
  contentType : String
  body : String
deriving DecidableEq

/-- A file of the file system: its bytes and whether the process may read / write it. -/
structure FileNode where
  data : String
  readable : Bool
  writable : Bool
deriving DecidableEq

/-- Observable effects, in the order in which they happen.  An event records that the call
was made, whether or not it succeeded. -/
inductive Event where
  | logged (msg : String)
  | fileOpened (path : String)
  | fileOpenedForWriting (path : String)
  | fileWritten (path : String) (data : String)
  | commandStarted (name : String) (arg : String)
  | routeRegistered (pattern : String)
  | listening (addr : String)
  | exchanged (code : String)
deriving DecidableEq

/-- How a call ends. -/
inductive Outcome (α : Type) where
  /-- returned a value together with a nil error -/
  | ok (v : α)
  /-- returned a non-nil error -/
  | err (e : Error)
  /-- the call ended in `log.Fatal...`: the message is logged and the process exits with status 1 -/
  | fatal (msg : String)
  /-- a Go panic -/
  | panicked (msg : String)
  /-- the call never returns: the flow is blocked forever on the channel receive -/
  | blocked
deriving DecidableEq

/-- Library behaviour the package relies on and that is not part of it. -/
structure Lib where
  /-- the bytes `json.NewEncoder(f).Encode(token)` hands to the file, or the marshalling error -/
  encodeToken : Token → Except Error String
  /-- the result of `json.NewDecoder(f).Decode(tok)` on a file with the given bytes -/
  decodeToken : String → Except Error Token
  /-- the method `json.Marshal` on a `credentials` value -/
  marshalCredentials : credentials → Except Error String
  /-- the function `google.ConfigFromJSON(b, scope)` -/
  ConfigFromJSON : String → String → Except Error Config
  /-- the method `config.AuthCodeURL(state, oauth2.AccessTypeOffline)` -/
  AuthCodeURL : Config → String → String
  /-- the function `calendar.NewService(ctx, option.WithHTTPClient(client))` -/
  NewService : HTTPClient → Except Error Service

/-- The state of the process and of its surroundings. -/
structure World where
  /-- the environment: `none` for a variable that is not set -/
  environ : String → Option String
  /-- the result of `os.UserHomeDir()` -/
  userHomeDir : Except Error String
  /-- the files that exist -/
  files : String → Option FileNode
  /-- whether a file that does not exist can be created at the path -/
  creatable : String → Bool
  /-- a write of `data` to the file at `path`: `none` when all of it is written, `some s`
  when only the leading part `s` reaches the file and the write reports an error -/
  shortWrite : String → String → Option String
  /-- the result of `exec.Command(name, arg).Start()` -/
  execStart : String → String → Option Error
  /-- the error with which `http.ListenAndServe(addr, nil)` fails to bind, if it does -/
  listenError : String → Option Error
  /-- the requests that reach the `/callback` route, in order of arrival -/
  requests : List Request
  /-- the answer of the token endpoint to `config.Exchange(ctx, code)` -/
  exchange : Config → String → Except Error Token
  /-- the patterns registered on `http.DefaultServeMux` -/
  mux : List String
  /-- the effects so far -/
  trace : List Event

/-- Append an effect to the trace. -/
def World.emit (w : World) (e : Event) : World :=
  { w with trace := w.trace ++ [e] }

/-- Replace the file at `path`. -/
def World.setFile (w : World) (path : String) (f : FileNode) : World :=
  { w with files := fun p => if p = path then some f else w.files p }

/-! ## Standard-library operations used by the package -/

/-- The function `os.Getenv`: the value of the variable, empty when it is not present. -/
def os_Getenv (w : World) (key : String) : String :=
  (w.environ key).getD ""

/-- The function `log.Fatalln`: log the message, then exit. -/
def log_Fatalln {α : Type} (msg : String) (w : World) : Outcome α × World :=
  (.fatal msg, w.emit (.logged msg))

/-- The function `os.UserHomeDir`. -/
def os_UserHomeDir (w : World) : Except Error String :=
  w.userHomeDir

/-- The function `os.Open`: open for reading. -/
def os_Open (path : String) (w : World) : Except Error FileNode × World :=
  let w1 := w.emit (.fileOpened path)
  match w.files path with
  | none => (.error ("open " ++ path ++ ": no such file or directory"), w1)
  | some f =>
    if f.readable then (.ok f, w1)
    else (.error ("open " ++ path ++ ": permission denied"), w1)

/-- The call `os.OpenFile(path, os.O_RDWR|os.O_CREATE|os.O_TRUNC, 0600)`: an existing file
must be readable and writable and is truncated; a missing one is created, empty, readable
and writable by its owner.  On success the opened (now empty) file is returned. -/
def os_OpenFile (path : String) (w : World) : Except Error FileNode × World :=
  let w1 := w.emit (.fileOpenedForWriting path)
  match w.files path with
  | none =>
    if w.creatable path then
      let f : FileNode := { data := "", readable := true, writable := true }
      (.ok f, w1.setFile path f)
    else (.error ("open " ++ path ++ ": permission denied"), w1)
  | some f0 =>
    if f0.readable && f0.writable then
      let f : FileNode := { f0 with data := "" }
      (.ok f, w1.setFile path f)
    else (.error ("open " ++ path ++ ": permission denied"), w1)

/-- The call `json.NewEncoder(f).Encode(token)` on the freshly truncated file `f` opened at
`path`: nothing is written when marshalling fails; otherwise the bytes are written, possibly
short. -/
def Encoder_Encode (L : Lib) (path : String) (f : FileNode) (token : Token) (w : World) :
    Option Error × World :=
  match L.encodeToken token with
  | .error e => (some e, w)
  | .ok bytes =>
    match w.shortWrite path bytes with
    | none => (none, (w.setFile path { f with data := bytes }).emit (.fileWritten path bytes))
    | some written =>
      (some ("write " ++ path ++ ": no space left on device"),
        (w.setFile path { f with data := written }).emit (.fileWritten path written))

/-- The method `url.Values.Get`: the first value associated with the key, the empty string
when there is none. -/
def url_Values_Get (query : List (String × String)) (key : String) : String :=
  match query.find? (fun kv => kv.1 == key) with
  | some kv => kv.2
  | none => ""

/-- The function `http.Error`: a plain-text reply with the message as one line. -/
def http_Error (error : String) (code : Nat) : Response :=
  { status := code, contentType := "text/plain; charset=utf-8", body := error ++ "\n" }

/-- The call `fmt.Fprintln(w, s)` on a response writer nothing was written to before: an
implicit status 200 and the line `s`. -/
def fmt_Fprintln (s : String) : Response :=
  { status := 200, contentType := "text/plain; charset=utf-8", body := s ++ "\n" }

/-! ## The package -/

/-- The method `initializeCredentials`: read the two environment variables, exit when one of
them is empty, otherwise fill in `o.creds`. -/
def initializeCredentials (o : OAuth) (w : World) : Outcome OAuth × World :=
  let googleClientId := os_Getenv w "GOOGLE_CLIENT_ID"
  if googleClientId = "" then log_Fatalln "GOOGLE_CLIENT_ID is not set" w
  else
    let googleClientSecret := os_Getenv w "GOOGLE_CLIENT_SECRET"
    if googleClientSecret = "" then log_Fatalln "GOOGLE_CLIENT_SECRET is not set" w
    else
      (.ok { o with creds :=
        { Installed :=
          { ProjectID := "jiyeol-tech"
            AuthURI := "https://accounts.google.com/o/oauth2/auth"
            TokenURI := "https://oauth2.googleapis.com/token"
            AuthProviderCertURL := "https://www.googleapis.com/oauth2/v1/certs"
            RedirectURIs := ["http://localhost:8000/callback"]
            ClientID := googleClientId
            ClientSecret := googleClientSecret } } }, w)

/-- The function `getTokenFromFile`: open the file and decode its content; either failure is
returned as the error. -/
def getTokenFromFile (L : Lib) (file : String) (w : World) : Except Error Token × World :=
  match os_Open file w with
  | (.error err, w1) => (.error err, w1)
  | (.ok f, w1) => (L.decodeToken f.data, w1)

/-- The function `saveToken`: open (create or truncate) the file and encode the token into
it.  The result of `Encode` is dropped: once the file is open the function returns nil. -/
def saveToken (L : Lib) (path : String) (token : Token) (w : World) : Option Error × World :=
  match os_OpenFile path w with
  | (.error err, w1) => (some err, w1)
  | (.ok f, w1) =>
    let (_, w2) := Encoder_Encode L path f token w1
    (none, w2)

/-- The state of the flow's only receive, `authCode := <-authCodeCh`. -/
inductive Receiver where
  /-- the flow is blocked on the receive (or has yet to reach it) -/
  | waiting
  /-- the receive has completed with this value; the flow never receives again -/
  | received (authCode : String)
deriving DecidableEq

/-- What one run of the `/callback` handler did. -/
structure Handled where
  /-- the value whose send on `authCodeCh` completed, if one did -/
  sent : Option String
  /-- the response written; `none` when the handler is parked forever on its send -/
  response : Option Response
deriving DecidableEq

/-- The handler registered for `/callback` in `getTokenFromWeb`.  The send on the unbuffered
channel completes exactly when the flow's receive is waiting for it. -/
def callbackHandler (rcv : Receiver) (r : Request) : Receiver × Handled :=
  let code := url_Values_Get r.query "code"
  if code = "" then
    (rcv, { sent := none, response := some (http_Error "Authorization code not found" 400) })
  else
    match rcv with
    | .waiting =>
      (.received code,
        { sent := some code
          response := some (fmt_Fprintln "Authorization code received. You can close this window.") })
    | .received authCode => (.received authCode, { sent := none, response := none })

/-- The server serving the arriving requests in order. -/
def serve : Receiver → List Request → Receiver × List Handled
  | rcv, [] => (rcv, [])
  | rcv, r :: rs =>
    let (rcv1, h) := callbackHandler rcv r
    let (rcv2, hs) := serve rcv1 rs
    (rcv2, h :: hs)

/-- The function `getTokenFromWeb`.  Besides its result it yields the configuration, whose
`RedirectURL` it overwrites through the pointer it was given. -/
def getTokenFromWeb (L : Lib) (config : Config) (w : World) : Outcome Token × Config × World :=
  let authURL := L.AuthCodeURL config "state-token"
  let w1 := w.emit (.logged
    ("Go to the following link in your browser then type the authorization code: \n"
      ++ authURL ++ "\n"))
  let w2 := w1.emit (.commandStarted "open" authURL)
  match w.execStart "open" authURL with
  | some err => (.err err, config, w2)
  | none =>
    let listenAddr := "localhost:8000"
    let redirectURI := "http://" ++ listenAddr ++ "/callback"
    let config1 := { config with RedirectURL := redirectURI }
    if "/callback" ∈ w2.mux then
      (.panicked "http: multiple registrations for /callback", config1, w2)
    else
      let w3 := { w2 with mux := "/callback" :: w2.mux }.emit (.routeRegistered "/callback")
      match w.listenError listenAddr with
      | some err => (.fatal err, config1, w3.emit (.logged err))
      | none =>
        let w4 := w3.emit (.listening listenAddr)
        match (serve .waiting w.requests).1 with
        | .waiting => (.blocked, config1, w4)
        | .received authCode =>
          let w5 := w4.emit (.exchanged authCode)
          match w.exchange config1 authCode with
          | .error err => (.err err, config1, w5)
          | .ok tok => (.ok tok, config1, w5)

/-- The function `getClient`: use the cached token when it loads, otherwise run the web flow
and save its token. -/
def getClient (L : Lib) (config : Config) (w : World) : Outcome HTTPClient × World :=
  match os_UserHomeDir w with
  | .error err => (.err err, w)
  | .ok home =>
    let tokFile := home ++ "/token.json"
    match getTokenFromFile L tokFile w with
    | (.ok tok, w1) => (.ok (config.Client tok), w1)
    | (.error _, w1) =>
      match getTokenFromWeb L config w1 with
      | (.ok tok, config1, w2) =>
        match saveToken L tokFile tok w2 with
        | (some err, w3) => (.err err, w3)
        | (none, w3) => (.ok (config1.Client tok), w3)
      | (.err err, _, w2) => (.err err, w2)
      | (.fatal msg, _, w2) => (.fatal msg, w2)
      | (.panicked msg, _, w2) => (.panicked msg, w2)
      | (.blocked, _, w2) => (.blocked, w2)

/-- The constant `calendar.CalendarEventsScope`. -/
def CalendarEventsScope : String := "https://www.googleapis.com/auth/calendar.events"

/-- The method `GetCalendarService`. -/
def GetCalendarService (L : Lib) (o : OAuth) (w : World) : Outcome Service × OAuth × World :=
  match initializeCredentials o w with
  | (.ok o1, w1) =>
    match L.marshalCredentials o1.creds with
    | .error err => (.err err, o1, w1)
    | .ok b =>
      match L.ConfigFromJSON b CalendarEventsScope with
      | .error err => (.err err, o1, w1)
      | .ok config =>
        match getClient L config w1 with
        | (.ok client, w2) =>
          match L.NewService client with
          | .ok srv => (.ok srv, o1, w2)
          | .error err => (.err err, o1, w2)
        | (.err err, w2) => (.err err, o1, w2)
        | (.fatal msg, w2) => (.fatal msg, o1, w2)
        | (.panicked msg, w2) => (.panicked msg, o1, w2)
        | (.blocked, w2) => (.blocked, o1, w2)
  | (.err err, w1) => (.err err, o, w1)
  | (.fatal msg, w1) => (.fatal msg, o, w1)
  | (.panicked msg, w1) => (.panicked msg, o, w1)
  | (.blocked, w1) => (.blocked, o, w1)

/-- What `getClient` makes of the interactive path: a function of the outcome of the web flow
and of the outcome of saving the token that flow returned, and of nothing else. -/
def interactiveResult (web : Outcome Token × Config × World)
    (save : Token → World → Option Error × World) : Outcome HTTPClient × World :=
  match web with
  | (.ok tok, config1, w2) =>
    match save tok w2 with
    | (some err, w3) => (.err err, w3)
    | (none, w3) => (.ok (config1.Client tok), w3)
  | (.err err, _, w2) => (.err err, w2)
  | (.fatal msg, _, w2) => (.fatal msg, w2)
  | (.panicked msg, _, w2) => (.panicked msg, w2)
  | (.blocked, _, w2) => (.blocked, w2)

/-- The code values whose send on `authCodeCh` completed while the requests were served,
starting with the flow waiting on its receive. -/
def delivered (reqs : List Request) : List String :=
  (serve .waiting reqs).2.filterMap (fun h => h.sent)

/-- The first non-empty `code` value among the requests, if there is one. -/
def firstCode (reqs : List Request) : Option String :=
  (reqs.map (fun r => url_Values_Get r.query "code")).find? (fun c => c != "")

/-! ## Concrete inputs -/

/-- A token as the provider issues it. -/
def sampleToken : Token :=
  { AccessToken := "ya29.a0", TokenType := "Bearer", RefreshToken := "1//0g",
    Expiry := 1767225600 }

/-- The zero value `oauth2.Token{}`. -/
def zeroToken : Token :=
  { AccessToken := "", TokenType := "", RefreshToken := "", Expiry := 0 }

/-- The line `encoding/json` writes for `sampleToken`. -/
def sampleJSON : String :=
  "\x7b\"access_token\":\"ya29.a0\",\"token_type\":\"Bearer\",\"refresh_token\":\"1//0g\",\"expiry\":\"2026-01-01T00:00:00Z\"\x7d\n"

/-- A library instance for concrete evaluations.  Its JSON functions agree with
`encoding/json` on the inputs used below: the sample token and its line, the empty object
(which decodes to the zero token), and the empty file (on which `Decode` reports `EOF`). -/
def sampleLib : Lib where
  encodeToken t := if t = sampleToken then .ok sampleJSON else .error "json: unsupported value"
  decodeToken s :=
    if s = sampleJSON then .ok sampleToken
    else if s = "\x7b\x7d" then .ok zeroToken
    else if s = "" then .error "EOF"
    else .error "invalid character"
  marshalCredentials c := .ok c.Installed.ClientID
  ConfigFromJSON b scope :=
    .ok { ClientID := b, ClientSecret := "", AuthURL := "https://accounts.google.com/o/oauth2/auth",
          TokenURL := "https://oauth2.googleapis.com/token",
          RedirectURL := "http://localhost:8000/callback", Scopes := [scope] }
  AuthCodeURL config state := config.AuthURL ++ "?state=" ++ state
  NewService client := .ok { client := client }

/-- A client configuration. -/
def sampleConfig : Config :=
  { ClientID := "id", ClientSecret := "secret",
    AuthURL := "https://accounts.google.com/o/oauth2/auth",
    TokenURL := "https://oauth2.googleapis.com/token",
    RedirectURL := "http://localhost:8000/callback", Scopes := [CalendarEventsScope] }

/-- The token file of the sample worlds. -/
def sampleTokFile : String := "/home/u/token.json"

/-- A fresh machine: both variables set, no token file, a writable home directory, a browser
that starts, a free port, one callback carrying the code `ABC123`, and a token endpoint that
accepts that code. -/
def freshWorld : World where
  environ k :=
    if k = "GOOGLE_CLIENT_ID" then some "id"
    else if k = "GOOGLE_CLIENT_SECRET" then some "secret" else none
  userHomeDir := .ok "/home/u"
  files _ := none
  creatable _ := true
  shortWrite _ _ := none
  execStart _ _ := none
  listenError _ := none
  requests := [{ query := [("state", "state-token"), ("code", "ABC123")] }]
  exchange _ code := if code = "ABC123" then .ok sampleToken else .error "oauth2: invalid_grant"
  mux := []
  trace := []

/-- The fresh machine with a full disk: files can be created but no byte can be written. -/
def fullDiskWorld : World :=
  { freshWorld with shortWrite := fun _ _ => some "" }

/-- The fresh machine with a home directory in which no file can be created. -/
def readOnlyHomeWorld : World :=
  { freshWorld with creatable := fun _ => false }

/-- The fresh machine with a token file of the given content. -/
def cachedWorld (content : String) : World :=
  { freshWorld with
    files := fun p =>
      if p = sampleTokFile then some { data := content, readable := true, writable := true }
      else none }

/-- The fresh machine with `GOOGLE_CLIENT_ID` set to the empty string. -/
def emptyIdWorld : World :=
  { freshWorld with
    environ := fun k =>
      if k = "GOOGLE_CLIENT_ID" then some ""
      else if k = "GOOGLE_CLIENT_SECRET" then some "secret" else none }

/-- The fresh machine with no variable set. -/
def noEnvWorld : World :=
  { freshWorld with environ := fun _ => none }

/-- The fresh machine on which the callbacks that arrive carry no usable code: one has no
`code` parameter, one has an empty one. -/
def noCodeWorld : World :=
  { freshWorld with requests := [{ query := [("state", "state-token")] }, { query := [("code", "")] }] }

/-- The fresh machine on which the home directory cannot be determined (`HOME` is not
defined), so that `os.UserHomeDir` fails.  No file exists, the token file included. -/
def noHomeWorld : World :=
  { freshWorld with userHomeDir := .error "$HOME is not defined" }

/-- A callback without a code, the callback with the code `ABC123`, and a later callback with
another code. -/
def sampleRequests : List Request :=
  [{ query := [("state", "state-token")] },
   { query := [("state", "state-token"), ("code", "ABC123")] },
   { query := [("code", "XYZ789")] }]

/-- The fresh machine on which the callback route is hit three times. -/
def busyWorld : World :=
  { freshWorld with requests := sampleRequests }

/-- The zero value `OAuth{}` on which the methods are called. -/
def zeroOAuth : OAuth :=
  { creds := { Installed :=
    { ClientID := "", ProjectID := "", AuthURI := "", TokenURI := "", AuthProviderCertURL := "",
      ClientSecret := "", RedirectURIs := [] } } }

/-! ## Basic facts about the world operations -/

@[simp]
theorem emit_environ (w : World) (e : Event) : (w.emit e).environ = w.environ := rfl
@[simp]
theorem emit_userHomeDir (w : World) (e : Event) :
    (w.emit e).userHomeDir = w.userHomeDir := rfl
@[simp]
theorem emit_files (w : World) (e : Event) : (w.emit e).files = w.files := rfl
@[simp]
theorem emit_creatable (w : World) (e : Event) : (w.emit e).creatable = w.creatable := rfl
@[simp]
theorem emit_shortWrite (w : World) (e : Event) :
    (w.emit e).shortWrite = w.shortWrite := rfl
@[simp]
theorem emit_execStart (w : World) (e : Event) : (w.emit e).execStart = w.execStart := rfl
@[simp]
theorem emit_listenError (w : World) (e : Event) :
    (w.emit e).listenError = w.listenError := rfl
@[simp]
theorem emit_requests (w : World) (e : Event) : (w.emit e).requests = w.requests := rfl
@[simp]
theorem emit_exchange (w : World) (e : Event) : (w.emit e).exchange = w.exchange := rfl
@[simp]
theorem emit_mux (w : World) (e : Event) : (w.emit e).mux = w.mux := rfl
@[simp]
theorem emit_trace (w : World) (e : Event) : (w.emit e).trace = w.trace ++ [e] := rfl

/-- Loading from a readable file decodes its content and changes nothing but the trace. -/
theorem getTokenFromFile_readable (L : Lib) (file : String) (w : World) (f : FileNode)
    (hFile : w.files file = some f) (hRead : f.readable = true) :
    getTokenFromFile L file w = (L.decodeToken f.data, w.emit (.fileOpened file)) := by
  simp [getTokenFromFile, os_Open, hFile, hRead]

/-- Loading from a missing file fails. -/
theorem getTokenFromFile_absent (L : Lib) (file : String) (w : World)
    (hFile : w.files file = none) :
    getTokenFromFile L file w =
      (.error ("open " ++ file ++ ": no such file or directory"), w.emit (.fileOpened file)) := by
  simp [getTokenFromFile, os_Open, hFile]

/-- Loading only ever adds the open to the trace. -/
theorem getTokenFromFile_world (L : Lib) (file : String) (w : World) :
    (getTokenFromFile L file w).2 = w.emit (.fileOpened file) := by
  unfold getTokenFromFile os_Open
  cases hFile : w.files file with
  | none => simp
  | some f => cases hRead : f.readable <;> simp [hRead]

/-- The cached path of `getClient`. -/
theorem getClient_of_load_ok (L : Lib) (config : Config) (w : World) (home : String) (t : Token)
    (hHome : w.userHomeDir = .ok home)
    (hLoad : (getTokenFromFile L (home ++ "/token.json") w).1 = .ok t) :
    getClient L config w = (.ok (config.Client t), w.emit (.fileOpened (home ++ "/token.json"))) := by
  have hw := getTokenFromFile_world L (home ++ "/token.json") w
  unfold getClient os_UserHomeDir
  rw [hHome]
  cases hr : getTokenFromFile L (home ++ "/token.json") w with
  | mk res w1 =>
    rw [hr] at hLoad hw
    simp only at hLoad hw
    subst hLoad hw
    simp only [hr]

/-- The interactive path of `getClient`. -/
theorem getClient_of_load_error (L : Lib) (config : Config) (w : World) (home : String)
    (e : Error) (hHome : w.userHomeDir = .ok home)
    (hLoad : (getTokenFromFile L (home ++ "/token.json") w).1 = .error e) :
    getClient L config w =
      interactiveResult
        (getTokenFromWeb L config (w.emit (.fileOpened (home ++ "/token.json"))))
        (saveToken L (home ++ "/token.json")) := by
  have hw := getTokenFromFile_world L (home ++ "/token.json") w
  unfold getClient os_UserHomeDir interactiveResult
  rw [hHome]
  cases hr : getTokenFromFile L (home ++ "/token.json") w with
  | mk res w1 =>
    rw [hr] at hLoad hw
    simp only at hLoad hw
    subst hLoad hw
    simp only [hr]

/-! ## The token store -/

/-- Whether `os.OpenFile` succeeds depends on the files and on what can be created only. -/
theorem os_OpenFile_result_congr (path : String) (w w' : World)
    (hFiles : w'.files = w.files) (hCreate : w'.creatable = w.creatable) :
    (os_OpenFile path w').1 = (os_OpenFile path w).1 := by
  unfold os_OpenFile
  rw [hFiles, hCreate]
  cases w.files path with
  | none => cases w.creatable path <;> simp
  | some f0 => by_cases hP : (f0.readable && f0.writable) = true <;> simp [hP]

/-- A file opened by `os.OpenFile` is empty and readable. -/
theorem os_OpenFile_ok (path : String) (w : World) (f : FileNode)
    (hOpen : (os_OpenFile path w).1 = .ok f) :
    f.data = "" ∧ f.readable = true ∧
      os_OpenFile path w = (.ok f, (w.emit (.fileOpenedForWriting path)).setFile path f) := by
  unfold os_OpenFile at hOpen ⊢
  cases hFile : w.files path with
  | none =>
    rw [hFile] at hOpen
    cases hC : w.creatable path with
    | false => simp [hC] at hOpen
    | true =>
      simp only [hC, if_true, Except.ok.injEq] at hOpen
      subst hOpen
      simp
  | some f0 =>
    rw [hFile] at hOpen
    by_cases hP : (f0.readable && f0.writable) = true
    · simp only [hP, if_true, Except.ok.injEq] at hOpen
      subst hOpen
      have hP' := hP
      simp only [Bool.and_eq_true] at hP'
      simp [hP, hP'.1, hP'.2]
    · simp [hP] at hOpen

/-- When the file cannot be opened, `saveToken` returns the error of `os.OpenFile` and leaves
the files as they were. -/
theorem saveToken_open_error (L : Lib) (path : String) (token : Token) (w : World) (e : Error)
    (hOpen : (os_OpenFile path w).1 = .error e) :
    saveToken L path token w = (some e, w.emit (.fileOpenedForWriting path)) := by
  unfold saveToken
  unfold os_OpenFile at hOpen ⊢
  cases hFile : w.files path with
  | none =>
    rw [hFile] at hOpen
    cases hC : w.creatable path with
    | false =>
      simp only [hC, Bool.false_eq_true, if_false, Except.error.injEq] at hOpen
      simp [← hOpen]
    | true => simp [hC] at hOpen
  | some f0 =>
    rw [hFile] at hOpen
    by_cases hP : (f0.readable && f0.writable) = true
    · simp [hP] at hOpen
    · have hOpen' : "open " ++ path ++ ": permission denied" = e := by simpa [hP] using hOpen
      subst hOpen'
      simp [hP]

/-- Once the file is open, `saveToken` returns nil whatever `Encode` reports. -/
theorem saveToken_opened (L : Lib) (path : String) (token : Token) (w : World) (f : FileNode)
    (hOpen : (os_OpenFile path w).1 = .ok f) :
    saveToken L path token w =
      (none, (Encoder_Encode L path f token
        ((w.emit (.fileOpenedForWriting path)).setFile path f)).2) := by
  obtain ⟨_, _, hEq⟩ := os_OpenFile_ok path w f hOpen
  unfold saveToken
  rw [hEq]

/-- A save whose bytes are written in full leaves exactly those bytes in a readable file. -/
theorem saveToken_written (L : Lib) (path : String) (token : Token) (w : World) (f : FileNode)
    (bytes : String) (hOpen : (os_OpenFile path w).1 = .ok f)
    (hEnc : L.encodeToken token = .ok bytes) (hWrite : w.shortWrite path bytes = none) :
    (saveToken L path token w).1 = none ∧
    (saveToken L path token w).2.files path = some { f with data := bytes } ∧
    f.readable = true ∧
    (saveToken L path token w).2.userHomeDir = w.userHomeDir := by
  obtain ⟨_, hRead, _⟩ := os_OpenFile_ok path w f hOpen
  rw [saveToken_opened L path token w f hOpen]
  have hW : ((w.emit (.fileOpenedForWriting path)).setFile path f).shortWrite path bytes = none :=
    hWrite
  simp [Encoder_Encode, hEnc, hW, hWrite, World.setFile, World.emit, hRead]

/-- Round trip of the token store when the write is complete and the library decodes what it
encoded. -/
theorem saveToken_getTokenFromFile (L : Lib) (path : String) (token : Token) (w : World)
    (f : FileNode) (bytes : String) (hOpen : (os_OpenFile path w).1 = .ok f)
    (hEnc : L.encodeToken token = .ok bytes) (hWrite : w.shortWrite path bytes = none)
    (hDec : L.decodeToken bytes = .ok token) :
    (getTokenFromFile L path (saveToken L path token w).2).1 = .ok token := by
  obtain ⟨_, hFile, hRead, _⟩ := saveToken_written L path token w f bytes hOpen hEnc hWrite
  rw [getTokenFromFile_readable L path _ _ hFile hRead]
  exact hDec

/-! ## The callback handler and the channel -/

/-- A query without the key yields the empty string. -/
theorem url_Values_Get_absent (query : List (String × String)) (key : String)
    (h : ∀ kv ∈ query, kv.1 ≠ key) : url_Values_Get query key = "" := by
  unfold url_Values_Get
  have hNone : query.find? (fun kv => kv.1 == key) = none := by
    rw [List.find?_eq_none]
    intro kv hkv
    simpa using h kv hkv
  rw [hNone]

/-- The handler on a request whose `code` is empty. -/
theorem callbackHandler_empty (rcv : Receiver) (r : Request)
    (h : url_Values_Get r.query "code" = "") :
    callbackHandler rcv r =
      (rcv, { sent := none, response := some (http_Error "Authorization code not found" 400) }) := by
  simp [callbackHandler, h]

/-- The handler on a request with a code while the flow waits on its receive. -/
theorem callbackHandler_waiting (r : Request) (h : url_Values_Get r.query "code" ≠ "") :
    callbackHandler .waiting r =
      (.received (url_Values_Get r.query "code"),
        { sent := some (url_Values_Get r.query "code")
          response :=
            some (fmt_Fprintln "Authorization code received. You can close this window.") }) := by
  simp [callbackHandler, h]

/-- The handler on a request with a code after the flow has received one: the send is never
matched, the handler stays parked. -/
theorem callbackHandler_received (c : String) (r : Request)
    (h : url_Values_Get r.query "code" ≠ "") :
    callbackHandler (.received c) r = (.received c, { sent := none, response := none }) := by
  simp [callbackHandler, h]

/-- After the receive has completed nothing more is delivered. -/
theorem serve_received (c : String) (reqs : List Request) :
    (serve (.received c) reqs).1 = .received c ∧
      (serve (.received c) reqs).2.filterMap (fun h => h.sent) = [] := by
  induction reqs with
  | nil => simp [serve]
  | cons r rs ih =>
    by_cases h : url_Values_Get r.query "code" = ""
    · simp [serve, callbackHandler_empty _ r h, ih]
    · simp [serve, callbackHandler_received c r h, ih]

/-- While the flow waits, the first non-empty code is the one delivered, and the only one. -/
theorem serve_waiting (reqs : List Request) :
    (serve .waiting reqs).1 =
        (match firstCode reqs with
         | none => .waiting
         | some c => .received c) ∧
      delivered reqs = (firstCode reqs).toList := by
  induction reqs with
  | nil => simp [serve, firstCode, delivered]
  | cons r rs ih =>
    by_cases h : url_Values_Get r.query "code" = ""
    · have hFirst : firstCode (r :: rs) = firstCode rs := by
        simp [firstCode, h]
      unfold delivered at ih ⊢
      simp only [serve, callbackHandler_empty _ r h, hFirst, List.filterMap_cons]
      exact ih
    · have hFirst : firstCode (r :: rs) = some (url_Values_Get r.query "code") := by
        simp [firstCode, h]
      obtain ⟨h1, h2⟩ := serve_received (url_Values_Get r.query "code") rs
      unfold delivered
      simp only [serve, callbackHandler_waiting r h, hFirst, List.filterMap_cons, h1, h2]
      simp

/-! ## The web flow -/

/-- The redirect URI built from the listen address. -/
theorem redirectURI_eq :
    "http://" ++ "localhost:8000" ++ "/callback" = "http://localhost:8000/callback" := by
  decide

/-- The web flow touches neither the files nor the home directory. -/
theorem getTokenFromWeb_frame (L : Lib) (config : Config) (w : World) :
    (getTokenFromWeb L config w).2.2.files = w.files ∧
    (getTokenFromWeb L config w).2.2.creatable = w.creatable ∧
    (getTokenFromWeb L config w).2.2.shortWrite = w.shortWrite ∧
    (getTokenFromWeb L config w).2.2.userHomeDir = w.userHomeDir := by
  unfold getTokenFromWeb
  simp only []
  split
  · simp
  · split
    · simp
    · split
      · simp [World.emit]
      · split
        · simp [World.emit]
        · split <;> simp [World.emit]

/-- The web flow always logs the link and starts the browser command. -/
theorem getTokenFromWeb_starts_browser (L : Lib) (config : Config) (w : World) :
    Event.commandStarted "open" (L.AuthCodeURL config "state-token") ∈
      (getTokenFromWeb L config w).2.2.trace := by
  unfold getTokenFromWeb
  simp only []
  split
  · simp
  · split
    · simp
    · split
      · simp [World.emit]
      · split
        · simp [World.emit]
        · split <;> simp [World.emit]

/-- The result of the web flow once the browser command has started, the route is free and
the port is bound: blocked when no request carries a non-empty code, otherwise the answer of
the token endpoint to the first such code. -/
theorem getTokenFromWeb_listening (L : Lib) (config : Config) (w : World)
    (hStart : w.execStart "open" (L.AuthCodeURL config "state-token") = none)
    (hMux : "/callback" ∉ w.mux) (hListen : w.listenError "localhost:8000" = none) :
    (getTokenFromWeb L config w).1 =
        (match firstCode w.requests with
         | none => .blocked
         | some code =>
           match w.exchange { config with RedirectURL := "http://localhost:8000/callback" } code with
           | .error err => .err err
           | .ok tok => .ok tok) ∧
      (getTokenFromWeb L config w).2.1 =
        { config with RedirectURL := "http://localhost:8000/callback" } := by
  have hServe := (serve_waiting w.requests).1
  unfold getTokenFromWeb
  simp only [hStart, emit_mux, hMux, if_false, hListen, redirectURI_eq]
  cases hFirst : firstCode w.requests with
  | none =>
    rw [hFirst] at hServe
    simp [hServe]
  | some code =>
    rw [hFirst] at hServe
    simp only [hServe]
    cases w.exchange { config with RedirectURL := "http://localhost:8000/callback" } code <;> simp

/-- Saving only ever adds to the trace. -/
theorem saveToken_keeps_trace (L : Lib) (path : String) (token : Token) (w : World) (e : Event)
    (h : e ∈ w.trace) : e ∈ (saveToken L path token w).2.trace := by
  cases hOpen : (os_OpenFile path w).1 with
  | error err =>
    rw [saveToken_open_error L path token w err hOpen]
    simp [h]
  | ok f =>
    rw [saveToken_opened L path token w f hOpen]
    unfold Encoder_Encode
    cases L.encodeToken token with
    | error err => simp [World.setFile, World.emit, h]
    | ok bytes =>
      simp only []
      cases ((w.emit (.fileOpenedForWriting path)).setFile path f).shortWrite path bytes <;>
        simp [World.setFile, World.emit, h]

/-- The interactive path keeps what the web flow put on the trace. -/
theorem interactiveResult_keeps_trace (L : Lib) (path : String)
    (web : Outcome Token × Config × World) (e : Event) (h : e ∈ web.2.2.trace) :
    e ∈ (interactiveResult web (saveToken L path)).2.trace := by
  obtain ⟨out, config1, w2⟩ := web
  cases out with
  | ok tok =>
    have hSave := saveToken_keeps_trace L path tok w2 e h
    unfold interactiveResult
    simp only []
    cases hs : saveToken L path tok w2 with
    | mk res w3 =>
      rw [hs] at hSave
      cases res <;> simpa using hSave
  | err err => simpa [interactiveResult] using h
  | fatal msg => simpa [interactiveResult] using h
  | panicked msg => simpa [interactiveResult] using h
  | blocked => simpa [interactiveResult] using h

/-- A web flow that returns a token got past the browser start, the route registration and
the bind. -/
theorem getTokenFromWeb_ok_inv (L : Lib) (config : Config) (w : World) (t : Token)
    (h : (getTokenFromWeb L config w).1 = .ok t) :
    w.execStart "open" (L.AuthCodeURL config "state-token") = none ∧
      "/callback" ∉ w.mux ∧ w.listenError "localhost:8000" = none := by
  unfold getTokenFromWeb at h
  simp only [] at h
  cases hStart : w.execStart "open" (L.AuthCodeURL config "state-token") with
  | some err => simp [hStart] at h
  | none =>
    by_cases hMux : "/callback" ∈ w.mux
    · simp [hStart, hMux] at h
    · cases hListen : w.listenError "localhost:8000" with
      | some err => simp [hStart, hMux, hListen] at h
      | none => exact ⟨rfl, hMux, rfl⟩

/-- Requests without a usable code in front do not change which code comes first. -/
theorem firstCode_append_of_empty (pre rest : List Request)
    (hPre : ∀ r ∈ pre, url_Values_Get r.query "code" = "") :
    firstCode (pre ++ rest) = firstCode rest := by
  induction pre with
  | nil => rfl
  | cons r rs ih =>
    have hr : url_Values_Get r.query "code" = "" := hPre r (List.mem_cons_self r rs)
    have hrs : ∀ r' ∈ rs, url_Values_Get r'.query "code" = "" :=
      fun r' h' => hPre r' (List.mem_cons_of_mem r h')
    have hStep : firstCode (r :: (rs ++ rest)) = firstCode (rs ++ rest) := by
      simp [firstCode, hr]
    rw [List.cons_append, hStep, ih hrs]

/-- A request with a non-empty code is the first one of the requests it leads. -/
theorem firstCode_cons_of_code (r : Request) (rest : List Request)
    (hCode : url_Values_Get r.query "code" ≠ "") :
    firstCode (r :: rest) = some (url_Values_Get r.query "code") := by
  simp [firstCode, hCode]

/-- Once a code has come first, later requests do not change it. -/
theorem firstCode_append_of_some (reqs more : List Request) (c : String)
    (h : firstCode reqs = some c) : firstCode (reqs ++ more) = some c := by
  induction reqs with
  | nil => simp [firstCode] at h
  | cons r rs ih =>
    by_cases hr : url_Values_Get r.query "code" = ""
    · have h1 : firstCode (r :: rs) = firstCode rs := by simp [firstCode, hr]
      have h2 : firstCode (r :: (rs ++ more)) = firstCode (rs ++ more) := by simp [firstCode, hr]
      rw [h1] at h
      rw [List.cons_append, h2, ih h]
    · rw [firstCode_cons_of_code r rs hr] at h
      rw [List.cons_append, firstCode_cons_of_code r (rs ++ more) hr]
      exact h

/-- The effects of a web flow that receives a code. -/
theorem getTokenFromWeb_trace_of_code (L : Lib) (config : Config) (w : World) (code : String)
    (hStart : w.execStart "open" (L.AuthCodeURL config "state-token") = none)
    (hMux : "/callback" ∉ w.mux) (hListen : w.listenError "localhost:8000" = none)
    (hFirst : firstCode w.requests = some code) :
    (getTokenFromWeb L config w).2.2.trace =
      w.trace ++
        [.logged ("Go to the following link in your browser then type the authorization code: \n"
            ++ L.AuthCodeURL config "state-token" ++ "\n"),
         .commandStarted "open" (L.AuthCodeURL config "state-token"),
         .routeRegistered "/callback",
         .listening "localhost:8000",
         .exchanged code] := by
  have hServe := (serve_waiting w.requests).1
  rw [hFirst] at hServe
  unfold getTokenFromWeb
  simp only [hStart, emit_mux, hMux, if_false, hListen, redirectURI_eq, hServe]
  cases w.exchange { config with RedirectURL := "http://localhost:8000/callback" } code <;>
    simp [World.emit]

/-! ## The claims -/

/-- C1 (round trip of the token store), evaluated on a full disk: the file is created, the
encoded token cannot be written, `saveToken` nevertheless returns nil, the file is left empty,
and `getTokenFromFile` run next returns the error `EOF` instead of the token saved. -/
theorem saveToken_nil_then_load_fails :
    (saveToken sampleLib sampleTokFile sampleToken fullDiskWorld).1 = none ∧
    ((saveToken sampleLib sampleTokFile sampleToken fullDiskWorld).2.files sampleTokFile).map
      (fun f => f.data) = some "" ∧
    (getTokenFromFile sampleLib sampleTokFile
      (saveToken sampleLib sampleTokFile sampleToken fullDiskWorld).2).1 = .error "EOF" := by
  refine ⟨by decide, by decide, by rfl⟩

/-- C5 (a token-store write failure is fatal), evaluated on a full disk: the cache is missing,
the web flow returns the sample token, the write of its encoding comes up short, yet
`saveToken` returns nil and `getClient` returns a client instead of an error. -/
theorem getClient_ignores_write_failure :
    (getTokenFromFile sampleLib sampleTokFile fullDiskWorld).1 =
      .error "open /home/u/token.json: no such file or directory" ∧
    sampleLib.encodeToken sampleToken = .ok sampleJSON ∧
    fullDiskWorld.shortWrite sampleTokFile sampleJSON = some "" ∧
    (Encoder_Encode sampleLib sampleTokFile { data := "", readable := true, writable := true }
      sampleToken fullDiskWorld).1 = some "write /home/u/token.json: no space left on device" ∧
    (saveToken sampleLib sampleTokFile sampleToken
      (getTokenFromWeb sampleLib sampleConfig
        (getTokenFromFile sampleLib sampleTokFile fullDiskWorld).2).2.2).1 = none ∧
    (getClient sampleLib sampleConfig fullDiskWorld).1 = .ok (sampleConfig.Client sampleToken) := by
  refine ⟨by rfl, by rfl, by rfl, by decide, by decide, by decide⟩

/-- C2 as stated fails: on a machine where the home directory cannot be determined no token
file exists, yet `getClient` returns the error of `os.UserHomeDir` at once: nothing is opened,
the web flow is not entered (the trace stays empty) and no client is returned. -/
theorem getClient_without_home_dir :
    noHomeWorld.files = (fun _ => none) ∧
    os_UserHomeDir noHomeWorld = .error "$HOME is not defined" ∧
    (getClient sampleLib sampleConfig noHomeWorld).1 = .err "$HOME is not defined" ∧
    (getClient sampleLib sampleConfig noHomeWorld).2.trace = [] ∧
    (getClient sampleLib sampleConfig noHomeWorld).2.mux = [] := by
  refine ⟨by rfl, by rfl, by decide, by decide, by decide⟩

/-- C2, amended (missing or corrupt cache falls back to the interactive flow): when the home
directory is determined and the token file `<home>/token.json` is absent, or present with
content that does not decode, `getClient` does not return the load error: it runs
`getTokenFromWeb` (the browser command is started) and its result is the function
`interactiveResult` of the outcome of `getTokenFromWeb` and of `saveToken` alone. -/
theorem getClient_falls_back_to_web (L : Lib) (config : Config) (w : World) (home : String)
    (hHome : w.userHomeDir = .ok home)
    (hFile : w.files (home ++ "/token.json") = none ∨
      ∃ f e, w.files (home ++ "/token.json") = some f ∧ L.decodeToken f.data = .error e) :
    getClient L config w =
        interactiveResult
          (getTokenFromWeb L config (w.emit (.fileOpened (home ++ "/token.json"))))
          (saveToken L (home ++ "/token.json")) ∧
      Event.commandStarted "open" (L.AuthCodeURL config "state-token") ∈
        (getClient L config w).2.trace := by
  have hLoad : ∃ e, (getTokenFromFile L (home ++ "/token.json") w).1 = .error e := by
    rcases hFile with hNone | ⟨f, e, hSome, hDec⟩
    · exact ⟨_, by rw [getTokenFromFile_absent L _ w hNone]⟩
    · cases hRead : f.readable with
      | true => exact ⟨e, by rw [getTokenFromFile_readable L _ w f hSome hRead, hDec]⟩
      | false =>
        exact ⟨"open " ++ (home ++ "/token.json") ++ ": permission denied",
          by simp [getTokenFromFile, os_Open, hSome, hRead]⟩
  obtain ⟨e, hLoad⟩ := hLoad
  have hEq := getClient_of_load_error L config w home e hHome hLoad
  refine ⟨hEq, ?_⟩
  rw [hEq]
  exact interactiveResult_keeps_trace L _ _ _ (getTokenFromWeb_starts_browser L config _)

/-- Witness for C2, amended: a machine without a token file, and one whose token file is not
JSON. -/
theorem getClient_falls_back_to_web_witness :
    (getClient sampleLib sampleConfig freshWorld =
        interactiveResult
          (getTokenFromWeb sampleLib sampleConfig
            (freshWorld.emit (.fileOpened ("/home/u" ++ "/token.json"))))
          (saveToken sampleLib ("/home/u" ++ "/token.json")) ∧
      Event.commandStarted "open" (sampleLib.AuthCodeURL sampleConfig "state-token") ∈
        (getClient sampleLib sampleConfig freshWorld).2.trace) ∧
    (getClient sampleLib sampleConfig (cachedWorld "not json") =
        interactiveResult
          (getTokenFromWeb sampleLib sampleConfig
            ((cachedWorld "not json").emit (.fileOpened ("/home/u" ++ "/token.json"))))
          (saveToken sampleLib ("/home/u" ++ "/token.json")) ∧
      Event.commandStarted "open" (sampleLib.AuthCodeURL sampleConfig "state-token") ∈
        (getClient sampleLib sampleConfig (cachedWorld "not json")).2.trace) :=
  ⟨getClient_falls_back_to_web sampleLib sampleConfig freshWorld "/home/u" rfl (Or.inl rfl),
   getClient_falls_back_to_web sampleLib sampleConfig (cachedWorld "not json") "/home/u" rfl
     (Or.inr ⟨{ data := "not json", readable := true, writable := true }, "invalid character",
       by rfl, by rfl⟩)⟩

/-- C3 (idempotent reuse of a cached token): when the token file is readable and holds a
token `t`, two calls of `getClient` in succession both return the client built from `t`; the
files and the registered routes stay as they were, and the only effects are the two opens of
the token file: no browser start, no listener, no exchange, no write. -/
theorem getClient_cached_twice (L : Lib) (config : Config) (w : World) (home : String)
    (f : FileNode) (t : Token)
    (hHome : w.userHomeDir = .ok home)
    (hFile : w.files (home ++ "/token.json") = some f)
    (hRead : f.readable = true)
    (hTok : L.decodeToken f.data = .ok t) :
    (getClient L config w).1 = .ok (config.Client t) ∧
    (getClient L config (getClient L config w).2).1 = .ok (config.Client t) ∧
    (getClient L config (getClient L config w).2).2.files = w.files ∧
    (getClient L config (getClient L config w).2).2.mux = w.mux ∧
    (getClient L config (getClient L config w).2).2.trace =
      w.trace ++ [.fileOpened (home ++ "/token.json"), .fileOpened (home ++ "/token.json")] := by
  have hLoad : (getTokenFromFile L (home ++ "/token.json") w).1 = .ok t := by
    rw [getTokenFromFile_readable L _ w f hFile hRead, hTok]
  have h1 := getClient_of_load_ok L config w home t hHome hLoad
  have hLoad2 : (getTokenFromFile L (home ++ "/token.json")
      (w.emit (.fileOpened (home ++ "/token.json")))).1 = .ok t := by
    rw [getTokenFromFile_readable L _ _ f (by simpa using hFile) hRead, hTok]
  have h2 := getClient_of_load_ok L config (w.emit (.fileOpened (home ++ "/token.json"))) home t
    (by simpa using hHome) hLoad2
  rw [h1]
  simp only []
  rw [h2]
  simp

/-- Witness for C3: a machine whose token file holds the encoding of the sample token. -/
theorem getClient_cached_twice_witness :
    (getClient sampleLib sampleConfig (cachedWorld sampleJSON)).1 =
      .ok (sampleConfig.Client sampleToken) ∧
    (getClient sampleLib sampleConfig
      (getClient sampleLib sampleConfig (cachedWorld sampleJSON)).2).1 =
      .ok (sampleConfig.Client sampleToken) ∧
    (getClient sampleLib sampleConfig
      (getClient sampleLib sampleConfig (cachedWorld sampleJSON)).2).2.files =
      (cachedWorld sampleJSON).files ∧
    (getClient sampleLib sampleConfig
      (getClient sampleLib sampleConfig (cachedWorld sampleJSON)).2).2.mux =
      (cachedWorld sampleJSON).mux ∧
    (getClient sampleLib sampleConfig
      (getClient sampleLib sampleConfig (cachedWorld sampleJSON)).2).2.trace =
      (cachedWorld sampleJSON).trace ++
        [.fileOpened ("/home/u" ++ "/token.json"), .fileOpened ("/home/u" ++ "/token.json")] :=
  getClient_cached_twice sampleLib sampleConfig (cachedWorld sampleJSON) "/home/u"
    { data := sampleJSON, readable := true, writable := true } sampleToken rfl (by rfl) rfl
    (by rfl)

/-- C10 (the cached token is accepted without validation): whatever the readable token file
contains, as soon as it decodes to a record `t` (of any access token and any expiry)
`getClient` returns the client built from `t`, and the only effect is the open of the token
file: the web flow is not entered and no file is written. -/
theorem getClient_accepts_any_decoded_token (L : Lib) (config : Config) (w : World)
    (home : String) (f : FileNode) (t : Token)
    (hHome : w.userHomeDir = .ok home)
    (hFile : w.files (home ++ "/token.json") = some f)
    (hRead : f.readable = true)
    (hTok : L.decodeToken f.data = .ok t) :
    getClient L config w =
      (.ok (config.Client t), w.emit (.fileOpened (home ++ "/token.json"))) := by
  apply getClient_of_load_ok L config w home t hHome
  rw [getTokenFromFile_readable L _ w f hFile hRead, hTok]

/-- Witness for C10: a token file holding the empty JSON object, which decodes to the zero
token (empty access token, zero expiry). -/
theorem getClient_accepts_any_decoded_token_witness :
    sampleLib.decodeToken "\x7b\x7d" = .ok zeroToken ∧
    getClient sampleLib sampleConfig (cachedWorld "\x7b\x7d") =
      (.ok (sampleConfig.Client zeroToken),
        (cachedWorld "\x7b\x7d").emit (.fileOpened ("/home/u" ++ "/token.json"))) :=
  ⟨by rfl,
   getClient_accepts_any_decoded_token sampleLib sampleConfig (cachedWorld "\x7b\x7d") "/home/u"
    { data := "\x7b\x7d", readable := true, writable := true } zeroToken rfl (by rfl) rfl (by rfl)⟩

/-- C4 as stated fails: in a home directory where the token file cannot be created, loading
fails and the web flow returns the sample token, yet `getClient` returns the error of
`saveToken`, no client, and no token file exists afterwards. -/
theorem getClient_interactive_save_fails :
    (getTokenFromFile sampleLib sampleTokFile readOnlyHomeWorld).1 =
      .error "open /home/u/token.json: no such file or directory" ∧
    (getTokenFromWeb sampleLib sampleConfig
      (getTokenFromFile sampleLib sampleTokFile readOnlyHomeWorld).2).1 = .ok sampleToken ∧
    (getClient sampleLib sampleConfig readOnlyHomeWorld).1 =
      .err "open /home/u/token.json: permission denied" ∧
    (getClient sampleLib sampleConfig readOnlyHomeWorld).2.files sampleTokFile = none := by
  refine ⟨by rfl, by decide, by decide, by decide⟩

/-- C4, amended (interactive path success): when loading the token file fails, the web flow
returns a token `t`, the token file can be opened for writing, and the encoding of `t` is
written in full and decodes back to `t`, then `getClient` returns the client built from `t`
(on the configuration with the redirect URL the web flow sets), afterwards the token file
holds the encoding of `t`, loading it yields `t`, and a following `getClient` call takes the
cached path with `t`. -/
theorem getClient_interactive_success (L : Lib) (config : Config) (w : World) (home : String)
    (e : Error) (t : Token) (f : FileNode) (bytes : String)
    (hHome : w.userHomeDir = .ok home)
    (hLoad : (getTokenFromFile L (home ++ "/token.json") w).1 = .error e)
    (hWeb : (getTokenFromWeb L config (getTokenFromFile L (home ++ "/token.json") w).2).1 = .ok t)
    (hOpen : (os_OpenFile (home ++ "/token.json") w).1 = .ok f)
    (hEnc : L.encodeToken t = .ok bytes)
    (hWrite : w.shortWrite (home ++ "/token.json") bytes = none)
    (hDec : L.decodeToken bytes = .ok t) :
    (getClient L config w).1 =
      .ok (Config.Client { config with RedirectURL := "http://localhost:8000/callback" } t) ∧
    (getClient L config w).2.files (home ++ "/token.json") = some { f with data := bytes } ∧
    (getTokenFromFile L (home ++ "/token.json") (getClient L config w).2).1 = .ok t ∧
    ∀ config', getClient L config' (getClient L config w).2 =
      (.ok (config'.Client t), (getClient L config w).2.emit (.fileOpened (home ++ "/token.json"))) := by
  rw [getTokenFromFile_world] at hWeb
  obtain ⟨hStart, hMux, hListen⟩ := getTokenFromWeb_ok_inv L config _ t hWeb
  have hConfig := (getTokenFromWeb_listening L config _ hStart hMux hListen).2
  obtain ⟨hFiles, hCreate, hShort, hHomeWeb⟩ :=
    getTokenFromWeb_frame L config (w.emit (.fileOpened (home ++ "/token.json")))
  rw [getClient_of_load_error L config w home e hHome hLoad]
  cases hweb : getTokenFromWeb L config (w.emit (.fileOpened (home ++ "/token.json"))) with
  | mk out rest =>
    obtain ⟨config1, w2⟩ := rest
    rw [hweb] at hWeb hConfig hFiles hCreate hShort hHomeWeb
    simp only [emit_files] at hWeb hConfig hFiles
    simp only [emit_creatable] at hCreate
    simp only [emit_shortWrite] at hShort
    simp only [emit_userHomeDir] at hHomeWeb
    subst hWeb hConfig
    have hOpen2 : (os_OpenFile (home ++ "/token.json") w2).1 = .ok f := by
      rw [os_OpenFile_result_congr _ w w2 hFiles hCreate]
      exact hOpen
    have hWrite2 : w2.shortWrite (home ++ "/token.json") bytes = none := by
      rw [hShort]
      exact hWrite
    obtain ⟨hNil, hFile3, hRead, hHome3⟩ :=
      saveToken_written L (home ++ "/token.json") t w2 f bytes hOpen2 hEnc hWrite2
    have hLoad3 := saveToken_getTokenFromFile L (home ++ "/token.json") t w2 f bytes hOpen2 hEnc
      hWrite2 hDec
    have hRes : interactiveResult
        (Outcome.ok t, { config with RedirectURL := "http://localhost:8000/callback" }, w2)
        (saveToken L (home ++ "/token.json")) =
        (.ok (Config.Client { config with RedirectURL := "http://localhost:8000/callback" } t),
          (saveToken L (home ++ "/token.json") t w2).2) := by
      unfold interactiveResult
      simp only []
      cases hs : saveToken L (home ++ "/token.json") t w2 with
      | mk res w3 =>
        rw [hs] at hNil
        simp only at hNil
        subst hNil
        rfl
    rw [hRes]
    refine ⟨rfl, hFile3, hLoad3, ?_⟩
    intro config'
    exact getClient_of_load_ok L config' _ home t (by rw [hHome3, hHomeWeb, hHome]) hLoad3

/-- Witness for C4, amended: the fresh machine. -/
theorem getClient_interactive_success_witness :
    (getClient sampleLib sampleConfig freshWorld).1 =
      .ok (Config.Client
        { sampleConfig with RedirectURL := "http://localhost:8000/callback" } sampleToken) ∧
    (getClient sampleLib sampleConfig freshWorld).2.files ("/home/u" ++ "/token.json") =
      some { ({ data := "", readable := true, writable := true } : FileNode) with
        data := sampleJSON } ∧
    (getTokenFromFile sampleLib ("/home/u" ++ "/token.json")
      (getClient sampleLib sampleConfig freshWorld).2).1 = .ok sampleToken ∧
    ∀ config', getClient sampleLib config' (getClient sampleLib sampleConfig freshWorld).2 =
      (.ok (config'.Client sampleToken),
        (getClient sampleLib sampleConfig freshWorld).2.emit
          (.fileOpened ("/home/u" ++ "/token.json"))) :=
  getClient_interactive_success sampleLib sampleConfig freshWorld "/home/u"
    "open /home/u/token.json: no such file or directory" sampleToken
    { data := "", readable := true, writable := true } sampleJSON
    rfl (by rfl) (by decide) (by rfl) (by rfl) rfl (by rfl)

/-- C6 (missing-parameter handling): on a request whose query has no `code` parameter the
handler answers with status 400 and the plain-text line "Authorization code not found", sends
nothing on the channel and leaves the receiver as it was; for the flow the request might as
well not have arrived: what is delivered, and whether the flow is still waiting, is the same
with and without it. -/
theorem callback_without_code (rcv : Receiver) (r : Request) (rs : List Request)
    (h : ∀ kv ∈ r.query, kv.1 ≠ "code") :
    callbackHandler rcv r =
      (rcv, { sent := none
              response := some { status := 400, contentType := "text/plain; charset=utf-8"
                                 body := "Authorization code not found\n" } }) ∧
    (serve .waiting [r]).1 = .waiting ∧
    delivered (r :: rs) = delivered rs ∧
    (serve .waiting (r :: rs)).1 = (serve .waiting rs).1 := by
  have hGet := url_Values_Get_absent r.query "code" h
  have hStep : ∀ rcv', callbackHandler rcv' r =
      (rcv', { sent := none, response := some (http_Error "Authorization code not found" 400) }) :=
    fun rcv' => callbackHandler_empty rcv' r hGet
  refine ⟨?_, ?_, ?_, ?_⟩
  · rw [hStep]
    rfl
  · simp [serve, hStep]
  · simp [delivered, serve, hStep]
  · simp [serve, hStep]

/-- Witness for C6: a callback that carries the state but no code. -/
theorem callback_without_code_witness :
    callbackHandler .waiting { query := [("state", "state-token")] } =
      (.waiting, { sent := none
                   response := some { status := 400, contentType := "text/plain; charset=utf-8"
                                      body := "Authorization code not found\n" } }) ∧
    (serve .waiting [{ query := [("state", "state-token")] }]).1 = .waiting ∧
    delivered ({ query := [("state", "state-token")] } :: [{ query := [("code", "ABC123")] }]) =
      delivered [{ query := [("code", "ABC123")] }] ∧
    (serve .waiting
      ({ query := [("state", "state-token")] } :: [{ query := [("code", "ABC123")] }])).1 =
      (serve .waiting [{ query := [("code", "ABC123")] }]).1 :=
  callback_without_code .waiting { query := [("state", "state-token")] }
    [{ query := [("code", "ABC123")] }] (by decide)

/-- C7 as stated fails twice: a request whose `code` parameter is present but empty is
answered with 400 and nothing is delivered; and a request carrying the code `B` after the
flow has received the code `A` delivers nothing and is never answered. -/
theorem callback_with_code_not_delivered :
    callbackHandler .waiting { query := [("code", "")] } =
      (.waiting, { sent := none
                   response := some { status := 400, contentType := "text/plain; charset=utf-8"
                                      body := "Authorization code not found\n" } }) ∧
    callbackHandler (.received "A") { query := [("code", "B")] } =
      (.received "A", { sent := none, response := none }) ∧
    (serve .waiting [{ query := [("code", "A")] }, { query := [("code", "B")] }]).2.map
      (fun h => h.response.map (fun resp => resp.status)) = [some 200, none] := by
  refine ⟨by decide, by decide, by decide⟩

/-- C7, amended (code-present handling): a request whose `code` parameter has a non-empty
first value and which arrives while the flow is still waiting (every earlier request had no
usable code) has that value delivered on the channel and is answered with status 200 and
the plain-text line "Authorization code received. You can close this window."; the web flow
then passes exactly that value to the token exchange and returns what the exchange answers. -/
theorem callback_with_code (L : Lib) (config : Config) (w : World) (r : Request)
    (pre post : List Request)
    (hCode : url_Values_Get r.query "code" ≠ "")
    (hPre : ∀ r' ∈ pre, url_Values_Get r'.query "code" = "")
    (hReqs : w.requests = pre ++ r :: post)
    (hStart : w.execStart "open" (L.AuthCodeURL config "state-token") = none)
    (hMux : "/callback" ∉ w.mux) (hListen : w.listenError "localhost:8000" = none) :
    (serve .waiting pre).1 = .waiting ∧
    callbackHandler .waiting r =
      (.received (url_Values_Get r.query "code"),
        { sent := some (url_Values_Get r.query "code")
          response := some
            { status := 200, contentType := "text/plain; charset=utf-8"
              body := "Authorization code received. You can close this window.\n" } }) ∧
    (getTokenFromWeb L config w).1 =
      (match w.exchange { config with RedirectURL := "http://localhost:8000/callback" }
          (url_Values_Get r.query "code") with
       | .error err => .err err
       | .ok tok => .ok tok) ∧
    (getTokenFromWeb L config w).2.2.trace =
      w.trace ++
        [.logged ("Go to the following link in your browser then type the authorization code: \n"
            ++ L.AuthCodeURL config "state-token" ++ "\n"),
         .commandStarted "open" (L.AuthCodeURL config "state-token"),
         .routeRegistered "/callback",
         .listening "localhost:8000",
         .exchanged (url_Values_Get r.query "code")] := by
  have hFirst : firstCode w.requests = some (url_Values_Get r.query "code") := by
    rw [hReqs, firstCode_append_of_empty pre (r :: post) hPre]
    exact firstCode_cons_of_code r post hCode
  have hPreNone : firstCode pre = none := by
    have := firstCode_append_of_empty pre [] hPre
    simpa [firstCode] using this
  refine ⟨?_, ?_, ?_, ?_⟩
  · have := (serve_waiting pre).1
    rw [hPreNone] at this
    exact this
  · rw [callbackHandler_waiting r hCode]
    rfl
  · rw [(getTokenFromWeb_listening L config w hStart hMux hListen).1, hFirst]
  · exact getTokenFromWeb_trace_of_code L config w _ hStart hMux hListen hFirst

/-- Witness for C7, amended: the callback with the code `ABC123`, arriving after a callback
without a code and before one with another code. -/
theorem callback_with_code_witness :
    (serve .waiting [{ query := [("state", "state-token")] }]).1 = .waiting ∧
    callbackHandler .waiting { query := [("state", "state-token"), ("code", "ABC123")] } =
      (.received "ABC123",
        { sent := some "ABC123"
          response := some
            { status := 200, contentType := "text/plain; charset=utf-8"
              body := "Authorization code received. You can close this window.\n" } }) ∧
    (getTokenFromWeb sampleLib sampleConfig busyWorld).1 = .ok sampleToken ∧
    (getTokenFromWeb sampleLib sampleConfig busyWorld).2.2.trace =
      [.logged ("Go to the following link in your browser then type the authorization code: \n"
          ++ "https://accounts.google.com/o/oauth2/auth?state=state-token" ++ "\n"),
       .commandStarted "open" "https://accounts.google.com/o/oauth2/auth?state=state-token",
       .routeRegistered "/callback",
       .listening "localhost:8000",
       .exchanged "ABC123"] :=
  callback_with_code sampleLib sampleConfig busyWorld
    { query := [("state", "state-token"), ("code", "ABC123")] }
    [{ query := [("state", "state-token")] }] [{ query := [("code", "XYZ789")] }]
    (by decide) (by decide) rfl rfl (by decide) rfl

/-- C8 as stated fails: when the callbacks that arrive carry no usable code (one without the
parameter, one with an empty value) no value is delivered at all and the web flow never
returns. -/
theorem no_code_delivered :
    delivered noCodeWorld.requests = [] ∧
    (serve .waiting noCodeWorld.requests).1 = .waiting ∧
    (getTokenFromWeb sampleLib sampleConfig noCodeWorld).1 = .blocked := by
  refine ⟨by decide, by decide, by decide⟩

/-- C8, amended (single-code acceptance): over every sequence of requests at most one code
value is delivered to the flow.  When no request carries a non-empty code nothing is
delivered and the flow keeps waiting; otherwise exactly the first non-empty code is
delivered, and however the route is hit afterwards the delivered values stay that single
one. -/
theorem single_code_acceptance (reqs more : List Request) :
    (delivered reqs).length ≤ 1 ∧
    delivered reqs = (firstCode reqs).toList ∧
    (firstCode reqs = none → delivered reqs = [] ∧ (serve .waiting reqs).1 = .waiting) ∧
    (∀ c, firstCode reqs = some c →
      delivered reqs = [c] ∧ (serve .waiting reqs).1 = .received c ∧
      delivered (reqs ++ more) = [c] ∧ (serve .waiting (reqs ++ more)).1 = .received c) := by
  obtain ⟨hState, hDel⟩ := serve_waiting reqs
  refine ⟨?_, hDel, ?_, ?_⟩
  · rw [hDel]
    cases firstCode reqs <;> simp
  · intro hNone
    rw [hNone] at hState hDel
    exact ⟨hDel, hState⟩
  · intro c hSome
    obtain ⟨hState2, hDel2⟩ := serve_waiting (reqs ++ more)
    rw [firstCode_append_of_some reqs more c hSome] at hState2 hDel2
    rw [hSome] at hState hDel
    exact ⟨hDel, hState, hDel2, hState2⟩

/-- Witness for C8, amended: of the three sample callbacks only `ABC123` is delivered, also
when the route is hit once more with yet another code; of two callbacks without a usable
code none is. -/
theorem single_code_acceptance_witness :
    (delivered sampleRequests = ["ABC123"] ∧
      (serve .waiting sampleRequests).1 = .received "ABC123" ∧
      delivered (sampleRequests ++ [{ query := [("code", "LATE")] }]) = ["ABC123"] ∧
      (serve .waiting (sampleRequests ++ [{ query := [("code", "LATE")] }])).1 =
        .received "ABC123") ∧
    (delivered noCodeWorld.requests = [] ∧
      (serve .waiting noCodeWorld.requests).1 = .waiting) :=
  ⟨(single_code_acceptance sampleRequests [{ query := [("code", "LATE")] }]).2.2.2 "ABC123"
      (by decide),
   (single_code_acceptance noCodeWorld.requests []).2.2.1 (by decide)⟩

/-- C9 as stated fails: with both variables set, `GOOGLE_CLIENT_ID` to the empty string, the
process is terminated in `initializeCredentials` and no credentials are filled in. -/
theorem empty_client_id_is_fatal :
    emptyIdWorld.environ "GOOGLE_CLIENT_ID" = some "" ∧
    emptyIdWorld.environ "GOOGLE_CLIENT_SECRET" = some "secret" ∧
    (initializeCredentials zeroOAuth emptyIdWorld).1 = .fatal "GOOGLE_CLIENT_ID is not set" ∧
    (GetCalendarService sampleLib zeroOAuth emptyIdWorld).1 =
      .fatal "GOOGLE_CLIENT_ID is not set" ∧
    (GetCalendarService sampleLib zeroOAuth emptyIdWorld).2.1 = zeroOAuth := by
  refine ⟨by decide, by decide, by decide, by decide, by decide⟩

/-- C9, amended (fatal configuration): when `GOOGLE_CLIENT_ID` or `GOOGLE_CLIENT_SECRET` is
unset or set to the empty string, `GetCalendarService` is terminated in
`initializeCredentials`, with the fatal message as the only effect: no file is opened or
written, no browser or listener is started, nothing is exchanged.  When both are set to
non-empty values, the credentials carry exactly those two values together with the fixed
provider constants. -/
theorem fatal_configuration (L : Lib) (o : OAuth) (w : World) :
    ((w.environ "GOOGLE_CLIENT_ID" = none ∨ w.environ "GOOGLE_CLIENT_ID" = some "" ∨
        w.environ "GOOGLE_CLIENT_SECRET" = none ∨ w.environ "GOOGLE_CLIENT_SECRET" = some "") →
      ∃ msg, initializeCredentials o w = (.fatal msg, w.emit (.logged msg)) ∧
        GetCalendarService L o w = (.fatal msg, o, w.emit (.logged msg))) ∧
    (∀ id secret, w.environ "GOOGLE_CLIENT_ID" = some id → id ≠ "" →
      w.environ "GOOGLE_CLIENT_SECRET" = some secret → secret ≠ "" →
      initializeCredentials o w =
        (.ok { creds := { Installed :=
          { ClientID := id
            ProjectID := "jiyeol-tech"
            AuthURI := "https://accounts.google.com/o/oauth2/auth"
            TokenURI := "https://oauth2.googleapis.com/token"
            AuthProviderCertURL := "https://www.googleapis.com/oauth2/v1/certs"
            ClientSecret := secret
            RedirectURIs := ["http://localhost:8000/callback"] } } }, w)) := by
  constructor
  · intro h
    by_cases hId : os_Getenv w "GOOGLE_CLIENT_ID" = ""
    · refine ⟨"GOOGLE_CLIENT_ID is not set", ?_⟩
      have hInit : initializeCredentials o w =
          (.fatal "GOOGLE_CLIENT_ID is not set", w.emit (.logged "GOOGLE_CLIENT_ID is not set")) := by
        simp [initializeCredentials, hId, log_Fatalln]
      refine ⟨hInit, ?_⟩
      unfold GetCalendarService
      rw [hInit]
    · have hSecret : os_Getenv w "GOOGLE_CLIENT_SECRET" = "" := by
        rcases h with h | h | h | h
        · exact absurd (by simp [os_Getenv, h]) hId
        · exact absurd (by simp [os_Getenv, h]) hId
        · simp [os_Getenv, h]
        · simp [os_Getenv, h]
      refine ⟨"GOOGLE_CLIENT_SECRET is not set", ?_⟩
      have hInit : initializeCredentials o w =
          (.fatal "GOOGLE_CLIENT_SECRET is not set",
            w.emit (.logged "GOOGLE_CLIENT_SECRET is not set")) := by
        simp [initializeCredentials, hId, hSecret, log_Fatalln]
      refine ⟨hInit, ?_⟩
      unfold GetCalendarService
      rw [hInit]
  · intro id secret hId hIdNe hSecret hSecretNe
    simp [initializeCredentials, os_Getenv, hId, hIdNe, hSecret, hSecretNe]

/-- Witness for C9, amended: a machine with no variable set, and the fresh machine with both
set. -/
theorem fatal_configuration_witness :
    (∃ msg, initializeCredentials zeroOAuth noEnvWorld =
        (.fatal msg, noEnvWorld.emit (.logged msg)) ∧
      GetCalendarService sampleLib zeroOAuth noEnvWorld =
        (.fatal msg, zeroOAuth, noEnvWorld.emit (.logged msg))) ∧
    initializeCredentials zeroOAuth freshWorld =
      (.ok { creds := { Installed :=
        { ClientID := "id"
          ProjectID := "jiyeol-tech"
          AuthURI := "https://accounts.google.com/o/oauth2/auth"
          TokenURI := "https://oauth2.googleapis.com/token"
          AuthProviderCertURL := "https://www.googleapis.com/oauth2/v1/certs"
          ClientSecret := "secret"
          RedirectURIs := ["http://localhost:8000/callback"] } } }, freshWorld) :=
  ⟨(fatal_configuration sampleLib zeroOAuth noEnvWorld).1 (Or.inl rfl),
   (fatal_configuration sampleLib zeroOAuth freshWorld).2 "id" "secret" (by rfl) (by decide)
     (by rfl) (by decide)⟩

end GoogleOAuth
